import Mathlib

/-!
Shallow embedding of the client-side state of `src/App.tsx`
(franstrack-site): the cookie-consent banner, the scroll-driven
navigation styling, the pricing data and billing-cycle toggle, and the
JSON-LD metadata emitter, together with theorems settling the spec's
claims about them.
-/

set_option autoImplicit false

/-! ## Browser storage model

`localStorage` is a string-keyed string store.  `getItem` returns the
stored value or `null`; in some environments any access to
`localStorage` throws (storage disabled), modelled by the `throwing`
state.  The module-level constant `isBrowser` of the source
(`typeof window !== "undefined" && typeof document !== "undefined"`)
is a field of the environment here, since it varies by runtime.
-/

def getEntries : List (String × String) → String → Option String
  | [], _ => none
  | (k0, v0) :: rest, k => if k0 = k then some v0 else getEntries rest k

def setEntries : List (String × String) → String → String → List (String × String)
  | [], k, v => [(k, v)]
  | (k0, v0) :: rest, k, v =>
      if k0 = k then (k, v) :: rest else (k0, v0) :: setEntries rest k v

inductive StorageState
  | available (entries : List (String × String))
  | throwing
  deriving DecidableEq

def StorageState.getItem : StorageState → String → Except Unit (Option String)
  | .available es, k => .ok (getEntries es k)
  | .throwing, _ => .error ()

def StorageState.setItem : StorageState → String → String → Except Unit StorageState
  | .available es, k, v => .ok (.available (setEntries es k v))
  | .throwing, _, _ => .error ()

structure BrowserEnv where
  isBrowser : Bool
  storage : StorageState
  deriving DecidableEq

/-! ## CookieBanner (App.tsx lines 48-84)

`const [visible, setVisible] = useState<boolean>(false)`;
mount effect: `if (!isBrowser) return; setVisible(!localStorage.getItem("ft_cookie_ok"))`;
Accept click: `if (isBrowser) localStorage.setItem("ft_cookie_ok", "1"); setVisible(false)`.
A thrown storage access aborts the surrounding callback before any
`setVisible` call, so the state update does not happen in that case.
-/

def cookieKey : String := "ft_cookie_ok"

inductive BannerState
  | Hidden
  | Visible
  deriving DecidableEq

/-- `if (!visible) return null` : the banner renders iff `visible`. -/
def CookieBanner.bannerState : Bool → BannerState
  | true => .Visible
  | false => .Hidden

def CookieBanner.initVisible : Bool := false

/-- JS truthiness of `!x` for `x : string | null`: `null` and the empty
string are falsy, every other string is truthy. -/
def jsNot : Option String → Bool
  | none => true
  | some s => s == ""

def CookieBanner.mountEffect (env : BrowserEnv) (visible : Bool) : Bool :=
  if env.isBrowser then
    match env.storage.getItem cookieKey with
    | .ok v => jsNot v
    | .error _ => visible
  else visible

/-- Banner visibility after a full mount: `useState(false)` then the
mount effect. -/
def CookieBanner.mount (env : BrowserEnv) : Bool :=
  CookieBanner.mountEffect env CookieBanner.initVisible

def CookieBanner.acceptClick (env : BrowserEnv) (visible : Bool) :
    BrowserEnv × Bool :=
  if env.isBrowser then
    match env.storage.setItem cookieKey "1" with
    | .ok st => ({ env with storage := st }, false)
    | .error _ => (env, visible)
  else (env, false)

theorem getEntries_setEntries (es : List (String × String)) (k v : String) :
    getEntries (setEntries es k v) k = some v := by
  induction es with
  | nil => simp [setEntries, getEntries]
  | cons p rest ih =>
      by_cases h : p.1 = k
      · simp [setEntries, getEntries, h]
      · simp [setEntries, getEntries, h, ih]

/-- Claim C1 counterexample: with the consent entry present but stored
with the empty-string value, the banner state after mount is `Visible`,
not `Hidden` as the claim predicts for any present value. -/
theorem banner_visible_on_empty_string_value :
    (StorageState.available [("ft_cookie_ok", "")]).getItem "ft_cookie_ok"
        = .ok (some "") ∧
    CookieBanner.bannerState
        (CookieBanner.mount ⟨true, .available [("ft_cookie_ok", "")]⟩)
        = .Visible ∧
    CookieBanner.bannerState
        (CookieBanner.mount ⟨true, .available [("ft_cookie_ok", "")]⟩)
        ≠ .Hidden := by
  refine ⟨rfl, rfl, ?_⟩
  decide

/-- Claim C1 (amended): after mount in a browser with accessible
storage, the banner is `Visible` iff the consent entry is absent or
stored with the empty-string value (JS truthiness of the read);
any present non-empty value yields `Hidden`. -/
theorem banner_visibility_iff_absent_or_empty
    (entries : List (String × String)) :
    CookieBanner.bannerState (CookieBanner.mount ⟨true, .available entries⟩)
        = .Visible ↔
      (getEntries entries cookieKey = none ∨
       getEntries entries cookieKey = some "") := by
  cases h : getEntries entries cookieKey with
  | none =>
      simp [CookieBanner.mount, CookieBanner.mountEffect, StorageState.getItem,
        h, jsNot, CookieBanner.bannerState, CookieBanner.initVisible]
  | some s =>
      by_cases hs : s = ""
      · subst hs
        simp [CookieBanner.mount, CookieBanner.mountEffect, StorageState.getItem,
          h, jsNot, CookieBanner.bannerState, CookieBanner.initVisible]
      · have hb : (s == "") = false := by simp [hs]
        simp [CookieBanner.mount, CookieBanner.mountEffect, StorageState.getItem,
          h, jsNot, CookieBanner.bannerState, CookieBanner.initVisible, hb, hs]

/-- Claim C2 counterexample: in a browser whose storage access throws,
the mount effect aborts before any `setVisible` call, so the banner
state after mount is the initial `Hidden`, not `Visible` as claimed. -/
theorem banner_hidden_when_storage_read_throws :
    CookieBanner.bannerState (CookieBanner.mount ⟨true, .throwing⟩) = .Hidden ∧
    CookieBanner.bannerState (CookieBanner.mount ⟨true, .throwing⟩) ≠ .Visible := by
  refine ⟨rfl, ?_⟩
  decide

/-- Claim C2 (amended): when the environment is not a browser or the
storage read throws, the mount effect performs no visibility update,
so the banner keeps its initial `Hidden` state — the unguarded read
fails closed to hiding the banner, not open to showing it. -/
theorem mount_read_failure_leaves_banner_hidden (env : BrowserEnv)
    (h : env.isBrowser = false ∨ env.storage = .throwing) :
    CookieBanner.mountEffect env CookieBanner.initVisible
        = CookieBanner.initVisible ∧
    CookieBanner.bannerState (CookieBanner.mount env) = .Hidden := by
  cases h with
  | inl hb =>
      simp [CookieBanner.mount, CookieBanner.mountEffect, hb,
        CookieBanner.bannerState, CookieBanner.initVisible]
  | inr hs =>
      cases hib : env.isBrowser <;>
        simp [CookieBanner.mount, CookieBanner.mountEffect, hib, hs,
          StorageState.getItem, CookieBanner.bannerState, CookieBanner.initVisible]

/-- Claim C2 witness: a non-browser environment instantiates the
amended statement. -/
theorem mount_read_failure_witness :
    CookieBanner.mountEffect ⟨false, .available []⟩ CookieBanner.initVisible
        = CookieBanner.initVisible ∧
    CookieBanner.bannerState (CookieBanner.mount ⟨false, .available []⟩)
        = .Hidden :=
  mount_read_failure_leaves_banner_hidden ⟨false, .available []⟩ (Or.inl rfl)

/-- Claim C3 counterexample: in a browser whose storage write throws,
the Accept click handler aborts before `setVisible(false)`, so the
banner stays `Visible` — the transition to `Hidden` does not happen. -/
theorem accept_aborts_when_write_throws :
    CookieBanner.acceptClick ⟨true, .throwing⟩ true = (⟨true, .throwing⟩, true) ∧
    CookieBanner.bannerState (CookieBanner.acceptClick ⟨true, .throwing⟩ true).2
        ≠ .Hidden := by
  refine ⟨rfl, ?_⟩
  decide

/-- Claim C3 (amended): Accept from `Visible` yields `Hidden` and
persists the flag as `"1"` when storage is writable; yields `Hidden`
without writing when not in a browser; but when the write throws, the
click handler aborts before hiding and the banner remains `Visible`
with the flag unwritten. -/
theorem accept_transition_cases :
    (∀ (entries : List (String × String)) (v : Bool),
      CookieBanner.acceptClick ⟨true, .available entries⟩ v
          = (⟨true, .available (setEntries entries cookieKey "1")⟩, false) ∧
      getEntries (setEntries entries cookieKey "1") cookieKey = some "1") ∧
    (∀ (st : StorageState) (v : Bool),
      CookieBanner.acceptClick ⟨false, st⟩ v = (⟨false, st⟩, false)) ∧
    (∀ v : Bool,
      CookieBanner.acceptClick ⟨true, .throwing⟩ v = (⟨true, .throwing⟩, v)) := by
  refine ⟨fun entries v => ⟨rfl, getEntries_setEntries entries cookieKey "1"⟩,
    fun st v => rfl, fun v => rfl⟩

/-- Claim C4: starting with no persisted consent entry in accessible
browser storage, the sequence mount; Accept; remount yields `Visible`,
then `Hidden` with the flag persisted as `"1"`, then `Hidden` again on
remount — the grant/read round-trip through storage holds. -/
theorem consent_roundtrip (entries : List (String × String))
    (h : getEntries entries cookieKey = none) :
    CookieBanner.bannerState (CookieBanner.mount ⟨true, .available entries⟩)
        = .Visible ∧
    CookieBanner.bannerState
        (CookieBanner.acceptClick ⟨true, .available entries⟩
          (CookieBanner.mount ⟨true, .available entries⟩)).2 = .Hidden ∧
    ((CookieBanner.acceptClick ⟨true, .available entries⟩
        (CookieBanner.mount ⟨true, .available entries⟩)).1).storage.getItem
        cookieKey = .ok (some "1") ∧
    CookieBanner.bannerState
        (CookieBanner.mount
          (CookieBanner.acceptClick ⟨true, .available entries⟩
            (CookieBanner.mount ⟨true, .available entries⟩)).1) = .Hidden := by
  refine ⟨?_, ?_, ?_, ?_⟩ <;>
    simp [CookieBanner.mount, CookieBanner.mountEffect, CookieBanner.acceptClick,
      StorageState.getItem, StorageState.setItem, h, jsNot,
      CookieBanner.bannerState, CookieBanner.initVisible, getEntries_setEntries]

/-- Claim C4 witness: the round-trip at the empty store. -/
theorem consent_roundtrip_witness :
    CookieBanner.bannerState (CookieBanner.mount ⟨true, .available []⟩)
        = .Visible ∧
    CookieBanner.bannerState
        (CookieBanner.acceptClick ⟨true, .available []⟩
          (CookieBanner.mount ⟨true, .available []⟩)).2 = .Hidden ∧
    ((CookieBanner.acceptClick ⟨true, .available []⟩
        (CookieBanner.mount ⟨true, .available []⟩)).1).storage.getItem
        cookieKey = .ok (some "1") ∧
    CookieBanner.bannerState
        (CookieBanner.mount
          (CookieBanner.acceptClick ⟨true, .available []⟩
            (CookieBanner.mount ⟨true, .available []⟩)).1) = .Hidden :=
  consent_roundtrip [] rfl

/-! ## Nav scroll observer (App.tsx lines 113-121)

`const [scrolled, setScrolled] = useState(false)`;
mount effect: `window.addEventListener('scroll', handleScroll)` with
`handleScroll = () => setScrolled(window.scrollY > 20)`, and cleanup
`window.removeEventListener('scroll', handleScroll)`.  The listener
list of the window's scroll event target is modelled as a list of
handler identities; `addEventListener` discards a duplicate of an
already-registered listener, `removeEventListener` removes the first
matching one.  Each mount creates a fresh `handleScroll` closure, so
its identity is not already registered.
-/

def addEventListener (ls : List Nat) (h : Nat) : List Nat :=
  if h ∈ ls then ls else ls ++ [h]

def removeEventListener (ls : List Nat) (h : Nat) : List Nat :=
  ls.erase h

def Nav.initScrolled : Bool := false

/-- `setScrolled(window.scrollY > 20)`: the new value depends only on
the scroll position read at event time, never on the previous state. -/
def Nav.handleScroll (y : Nat) (_prev : Bool) : Bool :=
  decide (20 < y)

/-- The Nav mount effect registers the scroll listener; it reads
nothing else — in particular it does not sample the scroll position,
so `y` is unused. -/
def Nav.mountEffect (ls : List Nat) (h : Nat) : List Nat :=
  addEventListener ls h

def Nav.unmountCleanup (ls : List Nat) (h : Nat) : List Nat :=
  removeEventListener ls h

/-- A full Nav mount under actual scroll position `y`: the listener is
registered and `scrolled` is the `useState` initial value. -/
def Nav.mount (_y : Nat) (ls : List Nat) (h : Nat) : List Nat × Bool :=
  (Nav.mountEffect ls h, Nav.initScrolled)

/-- Claim C5: the published signal equals `scrollY > 20` for every
delivered scroll position, independently of the previous state (no
hysteresis): y = 20 gives false, y = 21 gives true, and y = 0 gives
false even right after the signal was true. -/
theorem scroll_signal_matches_threshold :
    (∀ (y : Nat) (prev : Bool), Nav.handleScroll y prev = true ↔ 20 < y) ∧
    Nav.handleScroll 20 true = false ∧
    Nav.handleScroll 21 false = true ∧
    Nav.handleScroll 0 true = false := by
  refine ⟨fun y prev => ?_, rfl, rfl, rfl⟩
  simp [Nav.handleScroll]

/-- Claim C9: unmounting removes exactly the subscription that
mounting added: for a fresh handler identity, cleanup after the mount
effect restores the original listener list. -/
theorem scroll_unsubscribe_inverts_subscribe (ls : List Nat) (h : Nat)
    (hfresh : h ∉ ls) :
    Nav.unmountCleanup (Nav.mountEffect ls h) h = ls := by
  simp only [Nav.mountEffect, Nav.unmountCleanup, addEventListener,
    removeEventListener, if_neg hfresh]
  rw [List.erase_append_right _ hfresh]
  simp

/-- Claim C9 witness: subscribe then unsubscribe on the empty listener
list with handler identity 0. -/
theorem scroll_unsubscribe_witness :
    Nav.unmountCleanup (Nav.mountEffect [] 0) 0 = [] :=
  scroll_unsubscribe_inverts_subscribe [] 0 (by decide)

/-- Claim C10: after a Nav mount the `scrolled` signal is false
whatever the actual scroll position is — the mount effect only
registers the listener and never samples the position, so the mounted
state is the same for every `y`; only a delivered scroll event
recomputes the signal. -/
theorem nav_scrolled_false_before_first_event :
    ∀ (y : Nat) (ls : List Nat) (h : Nat),
      (Nav.mount y ls h).2 = false ∧
      (∀ y2 : Nat, Nav.mount y ls h = Nav.mount y2 ls h) ∧
      (Nav.handleScroll y (Nav.mount y ls h).2 = true ↔ 20 < y) := by
  intro y ls h
  refine ⟨rfl, fun y2 => rfl, ?_⟩
  simp [Nav.handleScroll]

/-! ## Pricing (App.tsx lines 360-516)

`const [billingCycle, setBillingCycle] = useState<'monthly' | 'annual'>('monthly')`;
the two toggle buttons call `setBillingCycle('monthly')` and
`setBillingCycle('annual')`; the displayed figure per plan is
`billingCycle === 'monthly' ? plan.monthlyPrice : plan.annualPrice`.
The `featured` key is absent (undefined, falsy) on Essential and
Enterprise, hence `false` here.
-/

inductive BillingCycle
  | monthly
  | annual
  deriving DecidableEq

structure Plan where
  name : String
  description : String
  monthlyPrice : Nat
  annualPrice : Nat
  featured : Bool
  features : List String
  deriving DecidableEq

def Pricing.plans : List Plan :=
  [{ name := "Essential",
     description := "Perfect for small fleets",
     monthlyPrice := 12,
     annualPrice := 10,
     featured := false,
     features := ["Live GPS Tracking", "Basic Reports", "Email Support",
       "30-day History", "Mobile App Access"] },
   { name := "Professional",
     description := "For growing businesses",
     monthlyPrice := 18,
     annualPrice := 15,
     featured := true,
     features := ["All Essential features", "Advanced Analytics",
       "Priority Support", "90-day History", "API Access",
       "Custom Reports", "SMS Alerts"] },
   { name := "Enterprise",
     description := "For large operations",
     monthlyPrice := 25,
     annualPrice := 20,
     featured := false,
     features := ["All Professional features", "Unlimited History",
       "24/7 Phone Support", "Dedicated Account Manager",
       "Custom Integrations", "SLA Guarantee", "White-label Options"] }]

def Pricing.initialBillingCycle : BillingCycle := .monthly

def Pricing.selectMonthly (_ : BillingCycle) : BillingCycle := .monthly

def Pricing.selectAnnual (_ : BillingCycle) : BillingCycle := .annual

def Pricing.displayedPrice (cycle : BillingCycle) (p : Plan) : Nat :=
  match cycle with
  | .monthly => p.monthlyPrice
  | .annual => p.annualPrice

/-- Claim C6: every plan satisfies `annualPrice ≤ monthlyPrice`, the
plans are exactly Essential 12/10, Professional 18/15, Enterprise
25/20 in order, and under the Annual cycle the displayed prices are
10, 15, 20 in plan order. -/
theorem plans_discount_invariant :
    Pricing.plans.all (fun p => decide (p.annualPrice ≤ p.monthlyPrice)) = true ∧
    Pricing.plans.map (fun p => (p.name, p.monthlyPrice, p.annualPrice))
        = [("Essential", 12, 10), ("Professional", 18, 15),
           ("Enterprise", 25, 20)] ∧
    Pricing.plans.map (Pricing.displayedPrice .annual) = [10, 15, 20] :=
  ⟨rfl, rfl, rfl⟩

/-- Claim C7: the toggle starts at Monthly, and selecting the same
cycle twice in a row is idempotent both on the state and on the
displayed prices, for either selection and from any state. -/
theorem billing_toggle_idempotent :
    Pricing.initialBillingCycle = .monthly ∧
    (∀ c, Pricing.selectAnnual (Pricing.selectAnnual c)
        = Pricing.selectAnnual c) ∧
    (∀ c, Pricing.selectMonthly (Pricing.selectMonthly c)
        = Pricing.selectMonthly c) ∧
    (∀ c, Pricing.plans.map
        (Pricing.displayedPrice (Pricing.selectAnnual (Pricing.selectAnnual c)))
        = Pricing.plans.map (Pricing.displayedPrice (Pricing.selectAnnual c))) ∧
    (∀ c, Pricing.plans.map
        (Pricing.displayedPrice (Pricing.selectMonthly (Pricing.selectMonthly c)))
        = Pricing.plans.map (Pricing.displayedPrice (Pricing.selectMonthly c))) :=
  ⟨rfl, fun _ => rfl, fun _ => rfl, fun _ => rfl, fun _ => rfl⟩

/-! ## JsonLD (App.tsx lines 87-110)

The component memoizes one literal object with an empty dependency
list and injects `JSON.stringify(json)` into a script tag; in a
non-browser environment it renders `null`.  The serializer below
mirrors `JSON.stringify` on this document: object fields in insertion
order, string values quoted with `"` and `\` escaped (the only
escapes that can arise in these values). -/

def escapeJsonChar (c : Char) : String :=
  if c = '"' then "\\\""
  else if c = '\\' then "\\\\"
  else String.singleton c

def escapeJsonString (s : String) : String :=
  String.join (s.toList.map escapeJsonChar)

def jsonQuote (s : String) : String :=
  "\"" ++ escapeJsonString s ++ "\""

def jsonField (k : String) (v : String) : String :=
  jsonQuote k ++ ":" ++ v

def jsonObject (fields : List String) : String :=
  "\x7b" ++ String.intercalate "," fields ++ "\x7d"

structure PostalAddress where
  addressLocality : String
  addressCountry : String

structure ContactPoint where
  telephone : String
  contactType : String

structure Organization where
  name : String
  description : String
  url : String
  logo : String
  address : PostalAddress
  contactPoint : ContactPoint

def PostalAddress.stringify (a : PostalAddress) : String :=
  jsonObject [jsonField "@type" (jsonQuote "PostalAddress"),
    jsonField "addressLocality" (jsonQuote a.addressLocality),
    jsonField "addressCountry" (jsonQuote a.addressCountry)]

def ContactPoint.stringify (c : ContactPoint) : String :=
  jsonObject [jsonField "@type" (jsonQuote "ContactPoint"),
    jsonField "telephone" (jsonQuote c.telephone),
    jsonField "contactType" (jsonQuote c.contactType)]

def Organization.stringify (o : Organization) : String :=
  jsonObject [jsonField "@context" (jsonQuote "https://schema.org"),
    jsonField "@type" (jsonQuote "Organization"),
    jsonField "name" (jsonQuote o.name),
    jsonField "description" (jsonQuote o.description),
    jsonField "url" (jsonQuote o.url),
    jsonField "logo" (jsonQuote o.logo),
    jsonField "address" o.address.stringify,
    jsonField "contactPoint" o.contactPoint.stringify]

/-- The literal object of the `useMemo` callback (empty dependency
list: computed once, constant). -/
def JsonLD.json : Organization :=
  { name := "Franstrack",
    description := "Professional GPS tracking and fleet management solutions with real-time vehicle monitoring and analytics.",
    url := "https://franstrack.com",
    logo := "https://franstrack.com/logo.png",
    address := { addressLocality := "Liverpool", addressCountry := "UK" },
    contactPoint := { telephone := "+44-151-000-0000",
                      contactType := "customer service" } }

/-- Rendering JsonLD: `null` outside a browser, otherwise the script
payload `JSON.stringify(json)`.  The component reads none of the
page's transient state; the trailing parameters record the scroll
signal, the banner visibility and the billing cycle in scope at render
time, none of which the source references. -/
def JsonLD.render (isBrowser : Bool) (_scrolled _consentVisible : Bool)
    (_cycle : BillingCycle) : Option String :=
  if isBrowser then some JsonLD.json.stringify else none

/-- Claim C8: the serialized structured-metadata document is one fixed
value: in a given environment kind, any two mounts under any values of
the transient state (scroll signal, consent visibility, billing cycle)
emit the identical document, and in a browser the emission always
succeeds with the serialization of the constant organization record. -/
theorem jsonld_static_determinism :
    (∀ (ib s1 c1 s2 c2 : Bool) (b1 b2 : BillingCycle),
      JsonLD.render ib s1 c1 b1 = JsonLD.render ib s2 c2 b2) ∧
    (∀ (s c : Bool) (b : BillingCycle),
      JsonLD.render true s c b = some JsonLD.json.stringify) :=
  ⟨fun _ _ _ _ _ _ _ => rfl, fun _ _ _ => rfl⟩
